import Mathlib

/-
  Verification development for the AS_BH1750 ambient-light-sensor driver.

  The driver (AS_BH1750.cpp / AS_BH1750.h) is embedded shallowly:
  the device handle's fields become a `Sensor` structure, the two-wire bus
  is an oracle `Env` giving the outcome of each write, each two-byte read
  and each presence probe, and every bus interaction is recorded in an
  event trace carried by `Exec`.  Each C++ member function becomes a Lean
  function on `Exec`, translated line by line from the source.
-/

namespace BH1750

/-- Bus interaction recorded in the trace: a one-byte command write to the
device address, a two-byte measurement request, or an addressed no-data
transaction used to test device presence. -/
inductive BusEvent : Type
  | write (b : Nat)
  | requestFrom (addr : Nat) (n : Nat)
  | probe
  deriving DecidableEq

/-- Device handle state: the fields of the C++ class AS_BH1750.
`hardwareMode` is 255 when uninitialized (the sentinel set by the
constructor), `mtreg` is the sensitivity register, `mtregFactor` the
derived scale factor (a C float, embedded as an exact rational). -/
structure Sensor where
  address : Nat
  hardwareMode : Nat
  mtreg : Nat
  mtregFactor : ℚ
  virtualMode : Nat
  autoPowerDown : Bool
  valueReaded : Bool
  deriving DecidableEq

/-- Execution state: the sensor handle, the trace of bus events so far,
and one cursor per kind of oracle response consumed. -/
structure Exec where
  sensor : Sensor
  events : List BusEvent
  writeIdx : Nat
  readIdx : Nat
  probeIdx : Nat
  deriving DecidableEq

/-- Bus oracle: outcome of the k-th one-byte write, the k-th two-byte
measurement read (`none` = transport failure, `some (hi, lo)` = the two
bytes delivered), and the k-th presence probe. -/
structure Env where
  writeOk : Nat → Bool
  readResp : Nat → Option (Nat × Nat)
  probeOk : Nat → Bool

/-- Source `isInitialized`: true iff the stored hardware mode is not the
255 sentinel. -/
def isInitialized (s : Sensor) : Bool := decide (s.hardwareMode ≠ 255)

/-- Source `write8`: one-byte write to the device address; result is the
bus outcome. -/
def write8 (env : Env) (d : Nat) (ex : Exec) : Bool × Exec :=
  (env.writeOk ex.writeIdx,
   { ex with events := ex.events ++ [BusEvent.write d], writeIdx := ex.writeIdx + 1 })

/-- Clamping of the MTreg argument performed at the top of `defineMTReg`:
values below BH1750_MTREG_MIN = 31 become 31, values above
BH1750_MTREG_MAX = 254 become 254. -/
def clampMT (val : Nat) : Nat :=
  if val < 31 then 31 else if val > 254 then 254 else val

/-- High command byte computed in `defineMTReg`: 0b01000000 with the top
3 bits of the clamped value. -/
def mtHiByte (v : Nat) : Nat := (v >>> 5) ||| 64

/-- Low command byte computed (but, in the source, never transmitted) in
`defineMTReg`: 0b01100000 with the bottom 5 bits of the clamped value. -/
def mtLoByte (v : Nat) : Nat := (v &&& 31) ||| 96

/-- Source `defineMTReg`: clamp, and when the clamped value differs from
the stored register, store it, recompute the scale factor 69 / value, and
issue the two command writes.  The source contains a defect kept here
faithfully: it calls `write8(hiByte)` twice and never transmits the
computed low byte. -/
def defineMTReg (env : Env) (val : Nat) (ex : Exec) : Exec :=
  let v := clampMT val
  if v = ex.sensor.mtreg then ex
  else
    let ex1 : Exec :=
      { ex with sensor := { ex.sensor with mtreg := v, mtregFactor := (69 : ℚ) / (v : ℚ) } }
    let ex2 := (write8 env (mtHiByte v) ex1).2
    (write8 env (mtHiByte v) ex2).2

/-- Source `selectResolutionMode`: refuse when uninitialized; otherwise
store the requested mode and clear the measured flag, then, when the mode
is one of the six legal command codes, write it and report the bus
outcome; report failure for any other mode. -/
def selectResolutionMode (env : Env) (mode : Nat) (ex : Exec) : Bool × Exec :=
  if isInitialized ex.sensor = false then (false, ex)
  else
    let ex1 : Exec :=
      { ex with sensor := { ex.sensor with hardwareMode := mode, valueReaded := false } }
    if mode = 0x10 ∨ mode = 0x11 ∨ mode = 0x13 ∨ mode = 0x20 ∨ mode = 0x21 ∨ mode = 0x23 then
      let w := write8 env mode ex1
      if w.1 then (true, w.2) else (false, w.2)
    else (false, ex1)

/-- Source `powerOn`: no-op when uninitialized; otherwise clear the
measured flag and re-issue the stored hardware mode. -/
def powerOn (env : Env) (ex : Exec) : Exec :=
  if isInitialized ex.sensor = false then ex
  else
    let ex1 : Exec := { ex with sensor := { ex.sensor with valueReaded := false } }
    (selectResolutionMode env ex1.sensor.hardwareMode ex1).2

/-- Source `powerDown`: no-op when uninitialized; otherwise write the
power-down command 0x00. -/
def powerDown (env : Env) (ex : Exec) : Exec :=
  if isInitialized ex.sensor = false then ex
  else (write8 env 0 ex).2

/-- Hardware mode chosen by the switch in `begin` for a virtual mode and
the auto-power-down flag; 255 for any unrecognized virtual mode.
Virtual modes: RESOLUTION_LOW = 1, RESOLUTION_NORMAL = 2,
RESOLUTION_HIGH = 3, RESOLUTION_AUTO_HIGH = 99. -/
def hwModeFor (mode : Nat) (apd : Bool) : Nat :=
  if mode = 1 then (if apd then 0x23 else 0x13)
  else if mode = 2 then (if apd then 0x20 else 0x10)
  else if mode = 3 then (if apd then 0x21 else 0x11)
  else if mode = 99 then 0x13
  else 255

/-- Source `begin`: store the requested virtual mode and flag, set the
default sensitivity register, map the virtual mode to a hardware mode,
and try to activate it; on an unrecognized mode or a failed activation
the stored hardware mode ends as the 255 sentinel and the call reports
failure. -/
def begin (env : Env) (mode : Nat) (apd : Bool) (ex : Exec) : Bool × Exec :=
  let ex0 : Exec :=
    { ex with sensor := { ex.sensor with virtualMode := mode, autoPowerDown := apd } }
  let ex1 := defineMTReg env 69 ex0
  let hw := hwModeFor mode apd
  let ex2 : Exec := { ex1 with sensor := { ex1.sensor with hardwareMode := hw } }
  if hw = 255 then (false, ex2)
  else
    let r := selectResolutionMode env hw ex2
    if r.1 then (true, r.2)
    else (false, { r.2 with sensor := { r.2.sensor with hardwareMode := 255 } })

/-- Source `readRawLevel`: request two bytes from the device address,
assemble them big-endian into a uint16, and return 65535 when the
transport reports failure; the measured flag is set only on success. -/
def readRawLevel (env : Env) (ex : Exec) : Nat × Exec :=
  let ex1 : Exec :=
    { ex with
      events := ex.events ++ [BusEvent.requestFrom ex.sensor.address 2]
      readIdx := ex.readIdx + 1 }
  match env.readResp ex.readIdx with
  | none => (65535, ex1)
  | some (hi, lo) =>
      ((((hi % 65536) <<< 8) % 65536) ||| (lo % 65536),
       { ex1 with sensor := { ex1.sensor with valueReaded := true } })

/-- Source `convertRawValue`: raw / 1.2, multiplied by the stored scale
factor when the register differs from the default 69, and halved for the
two 0.5 lx hardware modes (0x11 and 0x21). -/
def convertRawValue (raw : Nat) (s : Sensor) : ℚ :=
  let flevel : ℚ := (raw : ℚ) / 1.2
  let flevel2 : ℚ := if s.mtreg ≠ 69 then flevel * s.mtregFactor else flevel
  if s.hardwareMode = 0x11 ∨ s.hardwareMode = 0x21 then flevel2 / 2 else flevel2

/-- Addressed no-data bus transaction (beginTransmission followed by
endTransmission) used to test device presence. -/
def probeDevice (env : Env) (ex : Exec) : Bool × Exec :=
  (env.probeOk ex.probeIdx,
   { ex with events := ex.events ++ [BusEvent.probe], probeIdx := ex.probeIdx + 1 })

/-- Auto-range band reaction of `readLightLevel` (the if-chain on the
probe value): per band, set the sensitivity register and select the
high-resolution mode variant dictated by the auto-power-down flag. -/
def autoRangeBranch (env : Env) (level : Nat) (ex : Exec) : Exec :=
  if level < 10 then
    let ex1 := defineMTReg env 254 ex
    (selectResolutionMode env (if ex1.sensor.autoPowerDown then 0x21 else 0x11) ex1).2
  else if level < 32767 then
    let ex1 := defineMTReg env 69 ex
    (selectResolutionMode env (if ex1.sensor.autoPowerDown then 0x21 else 0x11) ex1).2
  else if level < 60000 then
    let ex1 := defineMTReg env 69 ex
    (selectResolutionMode env (if ex1.sensor.autoPowerDown then 0x20 else 0x10) ex1).2
  else
    let ex1 := defineMTReg env 32 ex
    (selectResolutionMode env (if ex1.sensor.autoPowerDown then 0x20 else 0x10) ex1).2

/-- Part of `readLightLevel` before the final raw read: the optional
wake-up, and, in the auto-high virtual mode (99), the low-resolution
probe read followed by the band reaction. -/
def readLightLevelPre (env : Env) (ex : Exec) : Exec :=
  let ex1 := if ex.sensor.autoPowerDown && ex.sensor.valueReaded then powerOn env ex else ex
  if ex1.sensor.virtualMode = 99 then
    let ex2 := defineMTReg env 69 ex1
    let ex3 := (selectResolutionMode env 0x13 ex2).2
    let r := readRawLevel env ex3
    autoRangeBranch env r.1 r.2
  else ex1

/-- Tail of `readLightLevel`: the final raw read, the presence re-probe
on the 65535 sentinel, and the conversion to lux. -/
def finalReadAndConvert (env : Env) (ex : Exec) : ℚ × Exec :=
  let r := readRawLevel env ex
  if r.1 = 65535 then
    let p := probeDevice env r.2
    if p.1 then (convertRawValue r.1 p.2.sensor, p.2) else (-1, p.2)
  else (convertRawValue r.1 r.2.sensor, r.2)

/-- Source `readLightLevel`: -1 when uninitialized; otherwise wake-up and
auto-range preparation followed by the final read and conversion. -/
def readLightLevel (env : Env) (ex : Exec) : ℚ × Exec :=
  if isInitialized ex.sensor = false then (-1, ex)
  else finalReadAndConvert env (readLightLevelPre env ex)

/-- Source `isPresent`: probe the address; on acknowledgment, either try
a throwaway one-time low-resolution mode (when never initialized, then
force the sentinel back) or wake the device, and report whether a reading
succeeds. -/
def isPresent (env : Env) (ex : Exec) : Bool × Exec :=
  let p := probeDevice env ex
  if p.1 = false then (false, p.2)
  else
    let ex1 :=
      if isInitialized p.2.sensor = false then
        let ex' := (selectResolutionMode env 0x23 p.2).2
        { ex' with sensor := { ex'.sensor with hardwareMode := 255 } }
      else powerOn env p.2
    let r := readLightLevel env ex1
    (decide (0 ≤ r.1), r.2)

/-- Freshly constructed handle: the C++ constructor sets the address and
the 255 sentinel; the remaining fields are indeterminate and are taken as
parameters. -/
def mkExec (addr mtreg0 : Nat) (factor0 : ℚ) (vm0 : Nat) (apd0 vr0 : Bool) : Exec :=
  { sensor :=
      { address := addr, hardwareMode := 255, mtreg := mtreg0, mtregFactor := factor0
        virtualMode := vm0, autoPowerDown := apd0, valueReaded := vr0 }
    events := [], writeIdx := 0, readIdx := 0, probeIdx := 0 }

/-- Public operations of the driver surface. -/
inductive PublicOp : Type
  | beginOp (mode : Nat) (apd : Bool)
  | isPresentOp
  | readLightLevelOp
  | powerDownOp

/-- One public operation applied to the execution state. -/
def stepOp (env : Env) (ex : Exec) (op : PublicOp) : Exec :=
  match op with
  | PublicOp.beginOp m a => (begin env m a ex).2
  | PublicOp.isPresentOp => (isPresent env ex).2
  | PublicOp.readLightLevelOp => (readLightLevel env ex).2
  | PublicOp.powerDownOp => powerDown env ex

/-- A sequence of public operations applied in order. -/
def runOps (env : Env) (ops : List PublicOp) (ex : Exec) : Exec :=
  ops.foldl (stepOp env) ex

/-- Legal stored hardware modes: the 255 sentinel or one of the six
device command codes. -/
def HwValid (m : Nat) : Prop :=
  m = 255 ∨ m = 0x10 ∨ m = 0x11 ∨ m = 0x13 ∨ m = 0x20 ∨ m = 0x21 ∨ m = 0x23

instance (m : Nat) : Decidable (HwValid m) := by
  unfold HwValid
  infer_instance

/-! Basic field-preservation lemmas, one per operation, used by the
invariant and error-handling theorems below. -/

theorem write8_sensor (env : Env) (d : Nat) (ex : Exec) :
    ((write8 env d ex).2).sensor = ex.sensor := rfl

theorem clampMT_bounds (val : Nat) : 31 ≤ clampMT val ∧ clampMT val ≤ 254 := by
  unfold clampMT
  split_ifs <;> omega

theorem defineMTReg_mtreg (env : Env) (val : Nat) (ex : Exec) :
    (defineMTReg env val ex).sensor.mtreg = clampMT val := by
  by_cases h : clampMT val = ex.sensor.mtreg
  · simp [defineMTReg, h]
  · simp [defineMTReg, h, write8]

theorem defineMTReg_hardwareMode (env : Env) (val : Nat) (ex : Exec) :
    (defineMTReg env val ex).sensor.hardwareMode = ex.sensor.hardwareMode := by
  by_cases h : clampMT val = ex.sensor.mtreg
  · simp [defineMTReg, h]
  · simp [defineMTReg, h, write8]

theorem defineMTReg_autoPowerDown (env : Env) (val : Nat) (ex : Exec) :
    (defineMTReg env val ex).sensor.autoPowerDown = ex.sensor.autoPowerDown := by
  by_cases h : clampMT val = ex.sensor.mtreg
  · simp [defineMTReg, h]
  · simp [defineMTReg, h, write8]

theorem defineMTReg_virtualMode (env : Env) (val : Nat) (ex : Exec) :
    (defineMTReg env val ex).sensor.virtualMode = ex.sensor.virtualMode := by
  by_cases h : clampMT val = ex.sensor.mtreg
  · simp [defineMTReg, h]
  · simp [defineMTReg, h, write8]

theorem defineMTReg_factor_nonneg (env : Env) (val : Nat) (ex : Exec)
    (h : 0 ≤ ex.sensor.mtregFactor) :
    0 ≤ (defineMTReg env val ex).sensor.mtregFactor := by
  by_cases hc : clampMT val = ex.sensor.mtreg
  · simpa [defineMTReg, hc] using h
  · simp [defineMTReg, hc, write8]
    positivity

theorem selectResolutionMode_mtreg (env : Env) (mode : Nat) (ex : Exec) :
    ((selectResolutionMode env mode ex).2).sensor.mtreg = ex.sensor.mtreg := by
  by_cases h : isInitialized ex.sensor
  · by_cases hm : mode = 0x10 ∨ mode = 0x11 ∨ mode = 0x13 ∨ mode = 0x20 ∨ mode = 0x21 ∨ mode = 0x23
    · simp only [selectResolutionMode, h, hm, write8, if_true, Bool.true_eq_false, if_false]
      split <;> rfl
    · simp [selectResolutionMode, h, hm]
  · have h' : isInitialized ex.sensor = false := by simpa using h
    simp [selectResolutionMode, h']

theorem selectResolutionMode_mtregFactor (env : Env) (mode : Nat) (ex : Exec) :
    ((selectResolutionMode env mode ex).2).sensor.mtregFactor = ex.sensor.mtregFactor := by
  by_cases h : isInitialized ex.sensor
  · by_cases hm : mode = 0x10 ∨ mode = 0x11 ∨ mode = 0x13 ∨ mode = 0x20 ∨ mode = 0x21 ∨ mode = 0x23
    · simp only [selectResolutionMode, h, hm, write8, if_true, Bool.true_eq_false, if_false]
      split <;> rfl
    · simp [selectResolutionMode, h, hm]
  · have h' : isInitialized ex.sensor = false := by simpa using h
    simp [selectResolutionMode, h']

theorem selectResolutionMode_autoPowerDown (env : Env) (mode : Nat) (ex : Exec) :
    ((selectResolutionMode env mode ex).2).sensor.autoPowerDown = ex.sensor.autoPowerDown := by
  by_cases h : isInitialized ex.sensor
  · by_cases hm : mode = 0x10 ∨ mode = 0x11 ∨ mode = 0x13 ∨ mode = 0x20 ∨ mode = 0x21 ∨ mode = 0x23
    · simp only [selectResolutionMode, h, hm, write8, if_true, Bool.true_eq_false, if_false]
      split <;> rfl
    · simp [selectResolutionMode, h, hm]
  · have h' : isInitialized ex.sensor = false := by simpa using h
    simp [selectResolutionMode, h']

theorem selectResolutionMode_virtualMode (env : Env) (mode : Nat) (ex : Exec) :
    ((selectResolutionMode env mode ex).2).sensor.virtualMode = ex.sensor.virtualMode := by
  by_cases h : isInitialized ex.sensor
  · by_cases hm : mode = 0x10 ∨ mode = 0x11 ∨ mode = 0x13 ∨ mode = 0x20 ∨ mode = 0x21 ∨ mode = 0x23
    · simp only [selectResolutionMode, h, hm, write8, if_true, Bool.true_eq_false, if_false]
      split <;> rfl
    · simp [selectResolutionMode, h, hm]
  · have h' : isInitialized ex.sensor = false := by simpa using h
    simp [selectResolutionMode, h']

theorem selectResolutionMode_not_init (env : Env) (mode : Nat) (ex : Exec)
    (h : isInitialized ex.sensor = false) :
    selectResolutionMode env mode ex = (false, ex) := by
  simp [selectResolutionMode, h]

theorem selectResolutionMode_hardwareMode_init (env : Env) (mode : Nat) (ex : Exec)
    (h : isInitialized ex.sensor = true) :
    ((selectResolutionMode env mode ex).2).sensor.hardwareMode = mode := by
  by_cases hm : mode = 0x10 ∨ mode = 0x11 ∨ mode = 0x13 ∨ mode = 0x20 ∨ mode = 0x21 ∨ mode = 0x23
  · simp only [selectResolutionMode, h, hm, write8, if_true, Bool.true_eq_false, if_false]
    split <;> rfl
  · simp [selectResolutionMode, h, hm]

theorem selectResolutionMode_hw_valid (env : Env) (mode : Nat) (ex : Exec)
    (hv : HwValid ex.sensor.hardwareMode) (hm : HwValid mode) :
    HwValid ((selectResolutionMode env mode ex).2).sensor.hardwareMode := by
  by_cases h : isInitialized ex.sensor
  · rw [selectResolutionMode_hardwareMode_init env mode ex h]
    exact hm
  · have h' : isInitialized ex.sensor = false := by simpa using h
    rw [selectResolutionMode_not_init env mode ex h']
    exact hv

theorem powerOn_sensor_hardwareMode (env : Env) (ex : Exec) :
    (powerOn env ex).sensor.hardwareMode = ex.sensor.hardwareMode := by
  by_cases h : isInitialized ex.sensor
  · have h1 :
        isInitialized
          ({ ex with sensor := { ex.sensor with valueReaded := false } } : Exec).sensor = true := by
      simpa [isInitialized] using h
    simp only [powerOn, h, Bool.true_eq_false, if_false]
    rw [selectResolutionMode_hardwareMode_init _ _ _ h1]
  · have h' : isInitialized ex.sensor = false := by simpa using h
    simp [powerOn, h']

theorem powerOn_sensor_mtreg (env : Env) (ex : Exec) :
    (powerOn env ex).sensor.mtreg = ex.sensor.mtreg := by
  unfold powerOn
  split
  · rfl
  · rw [selectResolutionMode_mtreg]

theorem powerOn_sensor_mtregFactor (env : Env) (ex : Exec) :
    (powerOn env ex).sensor.mtregFactor = ex.sensor.mtregFactor := by
  unfold powerOn
  split
  · rfl
  · rw [selectResolutionMode_mtregFactor]

theorem powerOn_sensor_autoPowerDown (env : Env) (ex : Exec) :
    (powerOn env ex).sensor.autoPowerDown = ex.sensor.autoPowerDown := by
  unfold powerOn
  split
  · rfl
  · rw [selectResolutionMode_autoPowerDown]

theorem powerOn_sensor_virtualMode (env : Env) (ex : Exec) :
    (powerOn env ex).sensor.virtualMode = ex.sensor.virtualMode := by
  unfold powerOn
  split
  · rfl
  · rw [selectResolutionMode_virtualMode]

theorem powerDown_sensor (env : Env) (ex : Exec) :
    (powerDown env ex).sensor = ex.sensor := by
  unfold powerDown
  split <;> rfl

theorem readRawLevel_sensor_hardwareMode (env : Env) (ex : Exec) :
    ((readRawLevel env ex).2).sensor.hardwareMode = ex.sensor.hardwareMode := by
  unfold readRawLevel
  rcases h : env.readResp ex.readIdx with _ | ⟨hi, lo⟩ <;> simp [h]

theorem readRawLevel_sensor_mtreg (env : Env) (ex : Exec) :
    ((readRawLevel env ex).2).sensor.mtreg = ex.sensor.mtreg := by
  unfold readRawLevel
  rcases h : env.readResp ex.readIdx with _ | ⟨hi, lo⟩ <;> simp [h]

theorem readRawLevel_sensor_mtregFactor (env : Env) (ex : Exec) :
    ((readRawLevel env ex).2).sensor.mtregFactor = ex.sensor.mtregFactor := by
  unfold readRawLevel
  rcases h : env.readResp ex.readIdx with _ | ⟨hi, lo⟩ <;> simp [h]

theorem readRawLevel_sensor_autoPowerDown (env : Env) (ex : Exec) :
    ((readRawLevel env ex).2).sensor.autoPowerDown = ex.sensor.autoPowerDown := by
  unfold readRawLevel
  rcases h : env.readResp ex.readIdx with _ | ⟨hi, lo⟩ <;> simp [h]

theorem probeDevice_sensor (env : Env) (ex : Exec) :
    ((probeDevice env ex).2).sensor = ex.sensor := rfl

theorem autoRangeBranch_hw_valid (env : Env) (level : Nat) (ex : Exec)
    (hv : HwValid ex.sensor.hardwareMode) :
    HwValid (autoRangeBranch env level ex).sensor.hardwareMode := by
  have hval : ∀ (a b : Nat) (c : Bool), HwValid a → HwValid b → HwValid (if c then a else b) := by
    intro a b c ha hb
    cases c <;> simpa
  unfold autoRangeBranch
  split_ifs <;>
    exact selectResolutionMode_hw_valid _ _ _
      (by rw [defineMTReg_hardwareMode]; exact hv)
      (hval _ _ _ (by decide) (by decide))

theorem finalReadAndConvert_hw_valid (env : Env) (ex : Exec)
    (hv : HwValid ex.sensor.hardwareMode) :
    HwValid ((finalReadAndConvert env ex).2).sensor.hardwareMode := by
  have hr := readRawLevel_sensor_hardwareMode env ex
  simp only [finalReadAndConvert]
  split
  · split <;> rw [probeDevice_sensor, hr] <;> exact hv
  · rw [hr]
    exact hv

theorem readLightLevelPre_hw_valid (env : Env) (ex : Exec)
    (hv : HwValid ex.sensor.hardwareMode) :
    HwValid (readLightLevelPre env ex).sensor.hardwareMode := by
  have h1 : HwValid
      (if ex.sensor.autoPowerDown && ex.sensor.valueReaded then powerOn env ex else ex).sensor.hardwareMode := by
    split
    · rw [powerOn_sensor_hardwareMode]
      exact hv
    · exact hv
  simp only [readLightLevelPre]
  generalize hE : (if ex.sensor.autoPowerDown && ex.sensor.valueReaded then powerOn env ex else ex) = e at h1 ⊢
  split
  · apply autoRangeBranch_hw_valid
    rw [readRawLevel_sensor_hardwareMode]
    exact selectResolutionMode_hw_valid _ _ _
      (by rw [defineMTReg_hardwareMode]; exact h1) (by decide)
  · exact h1

theorem readLightLevel_hw_valid (env : Env) (ex : Exec)
    (hv : HwValid ex.sensor.hardwareMode) :
    HwValid ((readLightLevel env ex).2).sensor.hardwareMode := by
  unfold readLightLevel
  split
  · exact hv
  · exact finalReadAndConvert_hw_valid _ _ (readLightLevelPre_hw_valid _ _ hv)

theorem hwModeFor_valid (mode : Nat) (apd : Bool) : HwValid (hwModeFor mode apd) := by
  unfold hwModeFor
  cases apd <;> split_ifs <;> decide

theorem begin_hw_valid (env : Env) (mode : Nat) (apd : Bool) (ex : Exec) :
    HwValid ((begin env mode apd ex).2).sensor.hardwareMode := by
  simp only [begin]
  split
  · next h => simp [h, HwValid]
  · split
    · exact selectResolutionMode_hw_valid _ _ _ (by simpa using hwModeFor_valid mode apd)
        (hwModeFor_valid mode apd)
    · simp [HwValid]

theorem isPresent_hw_valid (env : Env) (ex : Exec)
    (hv : HwValid ex.sensor.hardwareMode) :
    HwValid ((isPresent env ex).2).sensor.hardwareMode := by
  simp only [isPresent]
  split
  · simpa [probeDevice_sensor] using hv
  · apply readLightLevel_hw_valid
    split
    · simp [HwValid]
    · rw [powerOn_sensor_hardwareMode]
      simpa [probeDevice_sensor] using hv

theorem stepOp_hw_valid (env : Env) (ex : Exec) (op : PublicOp)
    (hv : HwValid ex.sensor.hardwareMode) :
    HwValid (stepOp env ex op).sensor.hardwareMode := by
  cases op with
  | beginOp m a => exact begin_hw_valid env m a ex
  | isPresentOp => exact isPresent_hw_valid env ex hv
  | readLightLevelOp => exact readLightLevel_hw_valid env ex hv
  | powerDownOp => rw [stepOp, powerDown_sensor]; exact hv

theorem runOps_hw_valid (env : Env) (ops : List PublicOp) (ex : Exec)
    (hv : HwValid ex.sensor.hardwareMode) :
    HwValid (runOps env ops ex).sensor.hardwareMode := by
  induction ops generalizing ex with
  | nil => exact hv
  | cons op ops ih => exact ih _ (stepOp_hw_valid env ex op hv)

theorem isInitialized_iff (s : Sensor) : isInitialized s = true ↔ s.hardwareMode ≠ 255 := by
  simp [isInitialized]

theorem isInitialized_false_iff (s : Sensor) :
    isInitialized s = false ↔ s.hardwareMode = 255 := by
  simp [isInitialized]

theorem selectResolutionMode_fst_write (env : Env) (mode : Nat) (ex : Exec)
    (hinit : isInitialized ex.sensor = true)
    (hm : mode = 0x10 ∨ mode = 0x11 ∨ mode = 0x13 ∨ mode = 0x20 ∨ mode = 0x21 ∨ mode = 0x23) :
    (selectResolutionMode env mode ex).1 = env.writeOk ex.writeIdx := by
  simp only [selectResolutionMode, hinit, hm, write8, if_true, Bool.true_eq_false, if_false]
  rcases hw : env.writeOk ex.writeIdx <;> simp [hw]

theorem convertRawValue_nonneg (raw : Nat) (s : Sensor) (h : 0 ≤ s.mtregFactor) :
    0 ≤ convertRawValue raw s := by
  have h0 : (0 : ℚ) ≤ (raw : ℚ) / 1.2 := by positivity
  simp only [convertRawValue]
  split
  · split
    · exact div_nonneg (mul_nonneg h0 h) (by norm_num)
    · exact div_nonneg h0 (by norm_num)
  · split
    · exact mul_nonneg h0 h
    · exact h0

theorem autoRangeBranch_factor_nonneg (env : Env) (level : Nat) (ex : Exec)
    (h : 0 ≤ ex.sensor.mtregFactor) :
    0 ≤ (autoRangeBranch env level ex).sensor.mtregFactor := by
  simp only [autoRangeBranch]
  split_ifs <;>
    (rw [selectResolutionMode_mtregFactor]; exact defineMTReg_factor_nonneg _ _ _ h)

theorem readLightLevelPre_factor_nonneg (env : Env) (ex : Exec)
    (h : 0 ≤ ex.sensor.mtregFactor) :
    0 ≤ (readLightLevelPre env ex).sensor.mtregFactor := by
  have h1 : 0 ≤
      (if ex.sensor.autoPowerDown && ex.sensor.valueReaded then powerOn env ex else ex).sensor.mtregFactor := by
    split
    · rw [powerOn_sensor_mtregFactor]
      exact h
    · exact h
  simp only [readLightLevelPre]
  generalize hE : (if ex.sensor.autoPowerDown && ex.sensor.valueReaded then powerOn env ex else ex) = e at h1 ⊢
  split
  · apply autoRangeBranch_factor_nonneg
    rw [readRawLevel_sensor_mtregFactor, selectResolutionMode_mtregFactor]
    exact defineMTReg_factor_nonneg _ _ _ h1
  · exact h1

theorem readLightLevel_init (env : Env) (ex : Exec) (h : isInitialized ex.sensor = true) :
    readLightLevel env ex = finalReadAndConvert env (readLightLevelPre env ex) := by
  simp [readLightLevel, h]

theorem finalReadAndConvert_sentinel (env : Env) (ex : Exec)
    (h : (readRawLevel env ex).1 = 65535) :
    finalReadAndConvert env ex =
      (if env.probeOk ((readRawLevel env ex).2).probeIdx = true then
        (convertRawValue 65535 ((readRawLevel env ex).2).sensor,
          (probeDevice env (readRawLevel env ex).2).2)
      else (-1, (probeDevice env (readRawLevel env ex).2).2)) := by
  simp [finalReadAndConvert, h, probeDevice]

/-! Sample oracles and states used by the concrete witnesses below. -/

/-- Oracle on which every bus transaction succeeds and every measurement
read delivers the bytes (0, 120). -/
def envOk : Env := ⟨fun _ => true, fun _ => some (0, 120), fun _ => true⟩

/-- Oracle on which writes succeed but measurement reads and presence
probes fail. -/
def envFail : Env := ⟨fun _ => true, fun _ => none, fun _ => false⟩

/-- Oracle on which every one-byte write fails. -/
def envWriteFail : Env := ⟨fun _ => false, fun _ => some (0, 120), fun _ => true⟩

/-- An initialized handle: continuous high-res mode 0x10, register 69,
factor 1, virtual mode RESOLUTION_NORMAL, no auto power down. -/
def exBase : Exec := ⟨⟨35, 0x10, 69, 1, 2, false, false⟩, [], 0, 0, 0⟩

/-- A freshly constructed handle (hardware mode 255). -/
def exFresh : Exec := mkExec 35 69 1 2 false false

/-- A sensor state in the 0.5 lx continuous mode (0x11), register 69. -/
def sMode2 : Sensor := ⟨35, 0x11, 69, 1, 3, true, false⟩

/-- A sensor state in the 1 lx continuous mode (0x10), register 69. -/
def sMode1 : Sensor := ⟨35, 0x10, 69, 1, 2, false, false⟩

/-! Claim theorems. -/

/-- C1 (counterevidence): starting from stored register 69, a call of
`defineMTReg` with 254 transmits the high command byte (0b01000111 = 71)
twice; the computed low byte (0b01111110 = 126) is never transmitted, so
the second bus write is not the low byte the two-step protocol requires. -/
theorem C1_defineMTReg_sends_high_byte_twice :
    (defineMTReg envOk 254 exBase).events =
      [BusEvent.write (mtHiByte 254), BusEvent.write (mtHiByte 254)]
    ∧ mtHiByte 254 = 71 ∧ mtLoByte 254 = 126 ∧ mtHiByte 254 ≠ mtLoByte 254 := by
  refine ⟨?_, by decide, by decide, by decide⟩
  decide

/-- C4: `defineMTReg` clamps its argument to [31, 254] (inputs below 31
become 31, above 254 become 254), stores the clamped value, is a complete
no-op (no state change, no bus writes) when the clamped value equals the
stored register, and is therefore idempotent. -/
theorem C4_defineMTReg_clamps_and_is_idempotent (env : Env) (val : Nat) (ex : Exec) :
    (defineMTReg env val ex).sensor.mtreg = clampMT val
    ∧ (31 ≤ clampMT val ∧ clampMT val ≤ 254)
    ∧ (val < 31 → clampMT val = 31)
    ∧ (254 < val → clampMT val = 254)
    ∧ (31 ≤ val → val ≤ 254 → clampMT val = val)
    ∧ (clampMT val = ex.sensor.mtreg → defineMTReg env val ex = ex)
    ∧ defineMTReg env val (defineMTReg env val ex) = defineMTReg env val ex := by
  have hnoop : ∀ e : Exec, clampMT val = e.sensor.mtreg → defineMTReg env val e = e := by
    intro e he
    simp [defineMTReg, he]
  have hspec : (val < 31 → clampMT val = 31) ∧ (254 < val → clampMT val = 254) ∧
      (31 ≤ val → val ≤ 254 → clampMT val = val) := by
    unfold clampMT
    split_ifs <;> omega
  exact ⟨defineMTReg_mtreg env val ex, clampMT_bounds val, hspec.1, hspec.2.1, hspec.2.2,
    hnoop ex, hnoop _ (defineMTReg_mtreg env val ex).symm⟩

/-- C4 witness: the theorem applied at input 300 on a handle with stored
register 69; the interesting inner hypotheses are discharged concretely. -/
theorem C4_witness :
    (defineMTReg envOk 300 exBase).sensor.mtreg = 254
    ∧ clampMT 300 = 254
    ∧ defineMTReg envOk 300 (defineMTReg envOk 300 exBase) = defineMTReg envOk 300 exBase := by
  have h := C4_defineMTReg_clamps_and_is_idempotent envOk 300 exBase
  exact ⟨h.1.trans (h.2.2.2.1 (by decide)), h.2.2.2.1 (by decide), h.2.2.2.2.2.2⟩

/-- C3: `convertRawValue` is deterministic in (raw, register, mode) once
the stored scale factor is the one derived from the register; with
register 69 and a hardware mode that is not a 0.5 lx variant it returns
raw / 1.2; and with register 69 each 0.5 lx variant returns half of the
corresponding 1 lx variant. -/
theorem C3_convertRawValue_pure_and_mode2_half (raw : Nat) (s t : Sensor) :
    (s.mtreg = t.mtreg → s.mtregFactor = (69 : ℚ) / (s.mtreg : ℚ) →
      t.mtregFactor = (69 : ℚ) / (t.mtreg : ℚ) → s.hardwareMode = t.hardwareMode →
      convertRawValue raw s = convertRawValue raw t)
    ∧ (s.mtreg = 69 → ¬(s.hardwareMode = 0x11 ∨ s.hardwareMode = 0x21) →
      convertRawValue raw s = (raw : ℚ) / 1.2)
    ∧ (s.mtreg = 69 → t.mtreg = 69 →
      ((s.hardwareMode = 0x11 ∧ t.hardwareMode = 0x10) ∨
        (s.hardwareMode = 0x21 ∧ t.hardwareMode = 0x20)) →
      convertRawValue raw s = convertRawValue raw t / 2) := by
  refine ⟨?_, ?_, ?_⟩
  · intro h1 h2 h3 h4
    simp only [convertRawValue, h2, h3, h1, h4]
  · intro h1 h2
    simp [convertRawValue, h1, h2]
  · intro h1 h2 h3
    rcases h3 with ⟨hs, ht⟩ | ⟨hs, ht⟩ <;> simp [convertRawValue, h1, h2, hs, ht]

/-- C3 witness: at raw = 120 and register 69, mode 0x10 gives 100 lux and
the 0.5 lx mode 0x11 gives half of the mode 0x10 value. -/
theorem C3_witness :
    convertRawValue 120 sMode1 = (120 : ℚ) / 1.2
    ∧ convertRawValue 120 sMode2 = convertRawValue 120 sMode1 / 2 := by
  have h2 := (C3_convertRawValue_pure_and_mode2_half 120 sMode1 sMode2).2.1 rfl (by decide)
  have h3 := (C3_convertRawValue_pure_and_mode2_half 120 sMode2 sMode1).2.2 rfl rfl
    (Or.inl ⟨rfl, rfl⟩)
  exact ⟨h2, h3⟩

/-- C7: on an uninitialized handle `readLightLevel` returns exactly -1
with no state change, and `powerOn` and `powerDown` are complete no-ops
(no bus write, no state change), for every oracle and every prior state. -/
theorem C7_uninitialized_reads_minus_one_and_power_ops_noop (env : Env) (ex : Exec)
    (h : isInitialized ex.sensor = false) :
    readLightLevel env ex = (-1, ex) ∧ powerOn env ex = ex ∧ powerDown env ex = ex := by
  refine ⟨?_, ?_, ?_⟩
  · simp [readLightLevel, h]
  · simp [powerOn, h]
  · simp [powerDown, h]

/-- C7 witness: the theorem applied to a freshly constructed handle under
the all-succeeding oracle. -/
theorem C7_witness :
    readLightLevel envOk exFresh = (-1, exFresh)
    ∧ powerOn envOk exFresh = exFresh ∧ powerDown envOk exFresh = exFresh :=
  C7_uninitialized_reads_minus_one_and_power_ops_noop envOk exFresh (by decide)

/-- C8: `readRawLevel` requests exactly 2 bytes from the device address;
on transport success it returns the big-endian combination of the two
bytes, and on transport failure it returns the sentinel 65535. -/
theorem C8_readRawLevel_big_endian_or_sentinel (env : Env) (ex : Exec) (hi lo : Nat) :
    ((readRawLevel env ex).2).events = ex.events ++ [BusEvent.requestFrom ex.sensor.address 2]
    ∧ (env.readResp ex.readIdx = none → (readRawLevel env ex).1 = 65535)
    ∧ (env.readResp ex.readIdx = some (hi, lo) → hi < 256 → lo < 256 →
        (readRawLevel env ex).1 = (hi <<< 8) ||| lo) := by
  refine ⟨?_, ?_, ?_⟩
  · unfold readRawLevel
    rcases h : env.readResp ex.readIdx with _ | ⟨a, b⟩ <;> simp [h]
  · intro h
    simp [readRawLevel, h]
  · intro h h1 h2
    simp only [readRawLevel, h]
    have e1 : hi % 65536 = hi := Nat.mod_eq_of_lt (by omega)
    have e2 : lo % 65536 = lo := Nat.mod_eq_of_lt (by omega)
    have e3 : hi <<< 8 < 65536 := by
      rw [Nat.shiftLeft_eq]
      have h256 : (2 : Nat) ^ 8 = 256 := by norm_num
      rw [h256]
      omega
    rw [e1, Nat.mod_eq_of_lt e3, e2]

/-- C8 witness: under the all-succeeding oracle delivering bytes (0, 120)
the read returns 120, and under the failing oracle it returns 65535. -/
theorem C8_witness :
    (readRawLevel envOk exBase).1 = ((0 : Nat) <<< 8) ||| 120
    ∧ (readRawLevel envFail exBase).1 = 65535
    ∧ ((readRawLevel envOk exBase).2).events =
        [BusEvent.requestFrom exBase.sensor.address 2] := by
  refine ⟨(C8_readRawLevel_big_endian_or_sentinel envOk exBase 0 120).2.2 rfl (by decide)
    (by decide), (C8_readRawLevel_big_endian_or_sentinel envFail exBase 0 120).2.1 rfl, ?_⟩
  have h := (C8_readRawLevel_big_endian_or_sentinel envOk exBase 0 120).1
  simpa using h

/-- C9: starting from a freshly constructed handle (any indeterminate
values of the unset fields), after every sequence of public operations
the stored hardware mode is the 255 sentinel or one of the six legal
command codes. -/
theorem C9_hardwareMode_always_legal (env : Env) (ops : List PublicOp) (addr mtreg0 : Nat)
    (factor0 : ℚ) (vm0 : Nat) (apd0 vr0 : Bool) :
    HwValid (runOps env ops (mkExec addr mtreg0 factor0 vm0 apd0 vr0)).sensor.hardwareMode :=
  runOps_hw_valid env ops _ (by simp [mkExec, HwValid])

/-- Common shape of the four auto-range reactions: a sensitivity change
followed by a mode selection between two variants per the auto-power-down
flag. -/
theorem autoRange_case (env : Env) (ex : Exec) (v a b : Nat)
    (hinit : isInitialized ex.sensor = true) :
    ((selectResolutionMode env (if (defineMTReg env v ex).sensor.autoPowerDown then a else b)
        (defineMTReg env v ex)).2).sensor.mtreg = clampMT v
    ∧ ((selectResolutionMode env (if (defineMTReg env v ex).sensor.autoPowerDown then a else b)
        (defineMTReg env v ex)).2).sensor.hardwareMode =
      (if ex.sensor.autoPowerDown then a else b) := by
  constructor
  · rw [selectResolutionMode_mtreg, defineMTReg_mtreg]
  · have hinit' : isInitialized (defineMTReg env v ex).sensor = true := by
      rw [isInitialized_iff, defineMTReg_hardwareMode]
      exact (isInitialized_iff _).mp hinit
    rw [selectResolutionMode_hardwareMode_init _ _ _ hinit', defineMTReg_autoPowerDown]

/-- C2: the auto-range probe classification partitions every raw value in
[0, 65535] into exactly one of the four bands with bounds 10, 32767,
60000 (inclusive-low, exclusive-high), and each band sets the stated
sensitivity register and selects the stated resolution-mode variant. -/
theorem C2_auto_range_bands (env : Env) (p : Nat) (ex : Exec)
    (hp : p < 65536) (hinit : isInitialized ex.sensor = true) :
    ((p < 10 ∧ ¬(10 ≤ p ∧ p < 32767) ∧ ¬(32767 ≤ p ∧ p < 60000) ∧ ¬60000 ≤ p) ∨
      (¬p < 10 ∧ (10 ≤ p ∧ p < 32767) ∧ ¬(32767 ≤ p ∧ p < 60000) ∧ ¬60000 ≤ p) ∨
      (¬p < 10 ∧ ¬(10 ≤ p ∧ p < 32767) ∧ (32767 ≤ p ∧ p < 60000) ∧ ¬60000 ≤ p) ∨
      (¬p < 10 ∧ ¬(10 ≤ p ∧ p < 32767) ∧ ¬(32767 ≤ p ∧ p < 60000) ∧ 60000 ≤ p))
    ∧ (p < 10 →
        (autoRangeBranch env p ex).sensor.mtreg = 254
        ∧ (autoRangeBranch env p ex).sensor.hardwareMode =
            (if ex.sensor.autoPowerDown then 0x21 else 0x11))
    ∧ (10 ≤ p → p < 32767 →
        (autoRangeBranch env p ex).sensor.mtreg = 69
        ∧ (autoRangeBranch env p ex).sensor.hardwareMode =
            (if ex.sensor.autoPowerDown then 0x21 else 0x11))
    ∧ (32767 ≤ p → p < 60000 →
        (autoRangeBranch env p ex).sensor.mtreg = 69
        ∧ (autoRangeBranch env p ex).sensor.hardwareMode =
            (if ex.sensor.autoPowerDown then 0x20 else 0x10))
    ∧ (60000 ≤ p →
        (autoRangeBranch env p ex).sensor.mtreg = 32
        ∧ (autoRangeBranch env p ex).sensor.hardwareMode =
            (if ex.sensor.autoPowerDown then 0x20 else 0x10)) := by
  refine ⟨by omega, ?_, ?_, ?_, ?_⟩
  · intro h
    have hc := autoRange_case env ex 254 0x21 0x11 hinit
    simp only [autoRangeBranch, h, if_true]
    exact ⟨hc.1.trans (by decide), hc.2⟩
  · intro h1 h2
    have hn1 : ¬p < 10 := by omega
    have hc := autoRange_case env ex 69 0x21 0x11 hinit
    simp only [autoRangeBranch, hn1, if_false, h2, if_true]
    exact ⟨hc.1.trans (by decide), hc.2⟩
  · intro h1 h2
    have hn1 : ¬p < 10 := by omega
    have hn2 : ¬p < 32767 := by omega
    have hc := autoRange_case env ex 69 0x20 0x10 hinit
    simp only [autoRangeBranch, hn1, hn2, if_false, h2, if_true]
    exact ⟨hc.1.trans (by decide), hc.2⟩
  · intro h1
    have hn1 : ¬p < 10 := by omega
    have hn2 : ¬p < 32767 := by omega
    have hn3 : ¬p < 60000 := by omega
    have hc := autoRange_case env ex 32 0x20 0x10 hinit
    simp only [autoRangeBranch, hn1, hn2, hn3, if_false]
    exact ⟨hc.1.trans (by decide), hc.2⟩

/-- C2 witness: the dark band at probe value 5 and the very-bright band
at probe value 65000, on the initialized sample handle. -/
theorem C2_witness :
    ((autoRangeBranch envOk 5 exBase).sensor.mtreg = 254
      ∧ (autoRangeBranch envOk 5 exBase).sensor.hardwareMode =
          (if exBase.sensor.autoPowerDown then 0x21 else 0x11))
    ∧ ((autoRangeBranch envOk 65000 exBase).sensor.mtreg = 32
      ∧ (autoRangeBranch envOk 65000 exBase).sensor.hardwareMode =
          (if exBase.sensor.autoPowerDown then 0x20 else 0x10)) :=
  ⟨(C2_auto_range_bands envOk 5 exBase (by decide) (by decide)).2.1 (by decide),
   (C2_auto_range_bands envOk 65000 exBase (by decide) (by decide)).2.2.2.2 (by decide)⟩

/-- Hardware codes produced by the `begin` switch for the four recognized
virtual modes are among the six legal command codes. -/
theorem hwModeFor_six (mode : Nat) (apd : Bool)
    (h : mode = 1 ∨ mode = 2 ∨ mode = 3 ∨ mode = 99) :
    hwModeFor mode apd = 0x10 ∨ hwModeFor mode apd = 0x11 ∨ hwModeFor mode apd = 0x13 ∨
      hwModeFor mode apd = 0x20 ∨ hwModeFor mode apd = 0x21 ∨ hwModeFor mode apd = 0x23 := by
  rcases h with rfl | rfl | rfl | rfl <;> cases apd <;> simp [hwModeFor]

/-- An unrecognized virtual mode maps to the 255 sentinel. -/
theorem hwModeFor_invalid (mode : Nat) (apd : Bool)
    (h : ¬(mode = 1 ∨ mode = 2 ∨ mode = 3 ∨ mode = 99)) :
    hwModeFor mode apd = 255 := by
  unfold hwModeFor
  split_ifs <;> omega

/-- C6: `begin` with an unrecognized virtual mode returns false and
leaves the handle uninitialized; and for a recognized virtual mode, if
the mode-select bus write (the one issued after the sensitivity-register
setup) fails, `begin` returns false and resets the stored hardware mode
to the 255 sentinel, so the handle is left uninitialized. -/
theorem C6_begin_failure_leaves_uninitialized (env : Env) (mode : Nat) (apd : Bool) (ex : Exec) :
    (¬(mode = 1 ∨ mode = 2 ∨ mode = 3 ∨ mode = 99) →
      (begin env mode apd ex).1 = false
      ∧ isInitialized ((begin env mode apd ex).2).sensor = false)
    ∧ ((mode = 1 ∨ mode = 2 ∨ mode = 3 ∨ mode = 99) →
      env.writeOk (defineMTReg env 69
        { ex with sensor :=
            { ex.sensor with virtualMode := mode, autoPowerDown := apd } }).writeIdx = false →
      (begin env mode apd ex).1 = false
      ∧ isInitialized ((begin env mode apd ex).2).sensor = false) := by
  constructor
  · intro h
    have h255 := hwModeFor_invalid mode apd h
    simp [begin, h255, isInitialized]
  · intro hm hw
    have hsix := hwModeFor_six mode apd hm
    have hne : hwModeFor mode apd ≠ 255 := by
      rcases hsix with h | h | h | h | h | h <;> rw [h] <;> decide
    have hinit2 : isInitialized
        ({ defineMTReg env 69
            { ex with sensor := { ex.sensor with virtualMode := mode, autoPowerDown := apd } } with
          sensor :=
            { (defineMTReg env 69
                { ex with sensor :=
                    { ex.sensor with virtualMode := mode, autoPowerDown := apd } }).sensor with
              hardwareMode := hwModeFor mode apd } } : Exec).sensor = true := by
      rw [isInitialized_iff]
      exact hne
    have hfst := selectResolutionMode_fst_write env (hwModeFor mode apd) _ hinit2 hsix
    simp only [begin, hne, if_false]
    rw [hfst] at *
    simp only [hw] at *
    simp [isInitialized]

/-- C6 witness: virtual mode 0 is rejected outright, and with virtual
mode RESOLUTION_NORMAL under an oracle whose writes fail, `begin` fails
and leaves the handle uninitialized. -/
theorem C6_witness :
    ((begin envOk 0 true exFresh).1 = false
      ∧ isInitialized ((begin envOk 0 true exFresh).2).sensor = false)
    ∧ ((begin envWriteFail 2 false exFresh).1 = false
      ∧ isInitialized ((begin envWriteFail 2 false exFresh).2).sensor = false) :=
  ⟨(C6_begin_failure_leaves_uninitialized envOk 0 true exFresh).1 (by decide),
   (C6_begin_failure_leaves_uninitialized envWriteFail 2 false exFresh).2
     (by decide) (by decide)⟩

/-- C10: on a handle that was never successfully initialized, `isPresent`
always returns false, and its only bus interaction is the initial
presence probe: the throwaway mode selection is refused by the
initialization guard (so no measurement command is written) and the
sensor state is left unchanged. -/
theorem C10_isPresent_uninitialized_false (env : Env) (ex : Exec)
    (h : isInitialized ex.sensor = false) :
    isPresent env ex =
      (false, { ex with events := ex.events ++ [BusEvent.probe], probeIdx := ex.probeIdx + 1 }) := by
  obtain ⟨⟨a, hm, m, f, v, pd, vr⟩, ev, wi, ri, pi⟩ := ex
  have h255 : hm = 255 := by simpa [isInitialized] using h
  subst h255
  rcases hp : env.probeOk pi with _ | _
  · simp [isPresent, probeDevice, hp]
  · simp [isPresent, probeDevice, hp, selectResolutionMode, isInitialized, readLightLevel,
      show ¬((0 : ℚ) ≤ -1) by norm_num]

/-- C10 witness: a fresh handle under the all-succeeding oracle: the
device acknowledges its address, yet `isPresent` reports false and adds
only the probe event. -/
theorem C10_witness :
    isPresent envOk exFresh =
      (false, { exFresh with events := [BusEvent.probe], probeIdx := 1 }) := by
  have h := C10_isPresent_uninitialized_false envOk exFresh (by decide)
  simpa [exFresh, mkExec] using h

/-- C5: when `readLightLevel` on an initialized handle (with a
nonnegative stored scale factor) obtains the sentinel 65535 from the
final raw read, it issues a device-presence probe; it returns -1 exactly
when that probe fails, and when the probe succeeds it returns the
sentinel converted numerically by `convertRawValue`. -/
theorem C5_sentinel_triggers_probe (env : Env) (ex : Exec)
    (hinit : isInitialized ex.sensor = true)
    (hfac : 0 ≤ ex.sensor.mtregFactor)
    (hraw : (readRawLevel env (readLightLevelPre env ex)).1 = 65535) :
    ((readLightLevel env ex).2).events =
      ((readRawLevel env (readLightLevelPre env ex)).2).events ++ [BusEvent.probe]
    ∧ ((readLightLevel env ex).1 = -1 ↔
        env.probeOk ((readRawLevel env (readLightLevelPre env ex)).2).probeIdx = false)
    ∧ (env.probeOk ((readRawLevel env (readLightLevelPre env ex)).2).probeIdx = true →
        (readLightLevel env ex).1 =
          convertRawValue 65535 ((readRawLevel env (readLightLevelPre env ex)).2).sensor) := by
  have hconv : 0 ≤ convertRawValue 65535 ((readRawLevel env (readLightLevelPre env ex)).2).sensor := by
    apply convertRawValue_nonneg
    rw [readRawLevel_sensor_mtregFactor]
    exact readLightLevelPre_factor_nonneg env ex hfac
  rw [readLightLevel_init env ex hinit, finalReadAndConvert_sentinel env _ hraw]
  rcases hp : env.probeOk ((readRawLevel env (readLightLevelPre env ex)).2).probeIdx with _ | _
  · simp [hp, probeDevice]
  · have hne : convertRawValue 65535 ((readRawLevel env (readLightLevelPre env ex)).2).sensor ≠ -1 := by
      intro hE
      rw [hE] at hconv
      norm_num at hconv
    simp [hp, probeDevice, hne]

/-- C5 witness: on the initialized sample handle under the oracle whose
reads and probes fail, the final raw read yields the sentinel and
`readLightLevel` returns -1. -/
theorem C5_witness :
    (readLightLevel envFail exBase).1 = -1
    ∧ ((readLightLevel envFail exBase).2).events =
        ((readRawLevel envFail (readLightLevelPre envFail exBase)).2).events ++ [BusEvent.probe] := by
  have h := C5_sentinel_triggers_probe envFail exBase (by decide) (by decide) (by decide)
  exact ⟨h.2.1.mpr (by decide), h.1⟩

end BH1750
